import Mathlib

set_option linter.unusedVariables false

/-! Shallow embedding of `src/guided_tweening.py` (the "Guided Inbetween"
Blender add-on).

The stroke-advance watcher (`_watch_timer`), the start/stop operators and the
overlay renderer's guide-list access (`draw_guides`) are modelled as pure
functions over an explicit state record mirroring the module-level globals.
Blender API reads (`bpy` introspection, `time.time()`, scene properties,
snapshot capture via `get_previous_frame_strokes_world`) are supplied through
environment records, one observation per poll.  `time.time()` values and the
debounce threshold are modelled as rationals; stroke points are world-space
coordinate triples. -/

/-- A world-space point (`mat @ Vector(p.position)`); coordinates as rationals. -/
structure GPoint where
  x : Rat
  y : Rat
  z : Rat
deriving DecidableEq, Repr

/-- A guide stroke: the list of world-space points of one source stroke
(element of `_guide_strokes_world`). -/
abbrev GStroke := List GPoint

/-- The module-level mutable state of `guided_tweening.py`:
`_draw_handle` (modelled as "a handle is present"), `_timer_keep`,
`_guide_strokes_world`, `_guide_index`, `_monitored_frame`,
`_last_current_frame_count`, the pending-commit sub-state
(`_pending_active`, `_pending_target`, `_pending_time`,
`_pending_last_pointlen`) and `_advances_since_check`.
Counts and the index are natural numbers: every assignment in the source is
built from `min`/`max` of non-negative quantities starting from `0`. -/
structure GuideState where
  draw_handle : Bool
  timer_keep : Bool
  guide_strokes_world : List GStroke
  guide_index : Nat
  monitored_frame : Option Int
  last_current_frame_count : Nat
  pending_active : Bool
  pending_target : Nat
  pending_time : Rat
  pending_last_pointlen : Nat
  advances_since_check : Nat
deriving DecidableEq, Repr

/-- `_debounce_seconds = 0.35`. -/
def debounce_seconds : Rat := 35 / 100

/-- The reschedule interval returned by `_watch_timer` (`return 0.12`). -/
def pollInterval : Rat := 12 / 100

/-- One poll's worth of observations of the Blender environment, as read by
`_watch_timer`: the current frame, `get_frame_stroke_count(context,
current_frame)`, `get_last_stroke_pointlen(context, _monitored_frame)`,
`time.time()`, the scene properties it consults, and the snapshot that
`get_previous_frame_strokes_world(context)` would return on this poll. -/
structure WatchEnv where
  frame_current : Int
  frame_stroke_count : Nat
  last_stroke_pointlen : Nat
  now : Rat
  gi_lock_frame : Bool
  gi_advance_on_release : Bool
  gi_integrity_check : Nat
  fresh_snapshot : List GStroke
deriving DecidableEq, Repr

/-- The advance logic shared verbatim by the immediate branch and the
pending-commit resolution branch of `_watch_timer`:
`_guide_index = min(_guide_index + added, max(0, len(_guide_strokes_world)-1))`,
`_last_current_frame_count = target`, `_advances_since_check += added`, and if
the counter reached `gi_integrity_check`, reset it and replace
`_guide_strokes_world` by the fresh snapshot.  Python's `max(0, len-1)` is
natural-number truncated subtraction `len - 1`. -/
def advanceStep (interval : Nat) (fresh : List GStroke) (added target : Nat)
    (s : GuideState) : GuideState :=
  let gi := min (s.guide_index + added) (s.guide_strokes_world.length - 1)
  let asc := s.advances_since_check + added
  if interval ≤ asc then
    { s with guide_index := gi, last_current_frame_count := target,
             advances_since_check := 0, guide_strokes_world := fresh }
  else
    { s with guide_index := gi, last_current_frame_count := target,
             advances_since_check := asc }

/-- FRAME CHANGE HANDLING branch of `_watch_timer` (taken when
`_monitored_frame is None or current_frame != _monitored_frame`). -/
def frameChangeStep (env : WatchEnv) (s : GuideState) : GuideState :=
  if env.gi_lock_frame ∧ s.monitored_frame ≠ none then
    { s with last_current_frame_count := env.frame_stroke_count,
             pending_active := false }
  else
    { s with monitored_frame := some env.frame_current,
             last_current_frame_count := env.frame_stroke_count,
             guide_index :=
               if s.guide_strokes_world.isEmpty then 0
               else min env.frame_stroke_count (s.guide_strokes_world.length - 1),
             pending_active := false }

/-- Pending-commit branch of `_watch_timer` (taken when `_pending_active`):
target update on count change, sample update on point-count change, and on
stability past the debounce window the commit with
`added = _pending_target - _last_current_frame_count` (advance only when
`added > 0`), always clearing `_pending_active`. -/
def pendingStep (env : WatchEnv) (s : GuideState) : GuideState :=
  if env.frame_stroke_count ≠ s.pending_target then
    { s with pending_target := env.frame_stroke_count,
             pending_last_pointlen := env.last_stroke_pointlen,
             pending_time := env.now }
  else if env.last_stroke_pointlen ≠ s.pending_last_pointlen then
    { s with pending_last_pointlen := env.last_stroke_pointlen,
             pending_time := env.now }
  else if debounce_seconds ≤ env.now - s.pending_time then
    let added : Int := (s.pending_target : Int) - (s.last_current_frame_count : Int)
    if 0 < added then
      { advanceStep env.gi_integrity_check env.fresh_snapshot added.toNat
          s.pending_target s with pending_active := false }
    else { s with pending_active := false }
  else s

/-- Normal-detection branch of `_watch_timer` (no frame change, no pending
commit): start a pending commit or advance immediately on a count increase,
resynchronize on a count decrease, otherwise no-op. -/
def detectStep (env : WatchEnv) (s : GuideState) : GuideState :=
  if s.last_current_frame_count < env.frame_stroke_count then
    if env.gi_advance_on_release then
      { s with pending_active := true,
               pending_target := env.frame_stroke_count,
               pending_time := env.now,
               pending_last_pointlen := env.last_stroke_pointlen }
    else
      advanceStep env.gi_integrity_check env.fresh_snapshot
        (env.frame_stroke_count - s.last_current_frame_count)
        env.frame_stroke_count s
  else if env.frame_stroke_count < s.last_current_frame_count then
    { s with last_current_frame_count := env.frame_stroke_count,
             pending_active := false,
             guide_index :=
               if s.guide_strokes_world.isEmpty then 0
               else min env.frame_stroke_count (s.guide_strokes_world.length - 1) }
  else s

/-- The body of `_watch_timer`'s `try:` block (lines 382-469): one poll's
state transition. -/
def watchBody (env : WatchEnv) (s : GuideState) : GuideState :=
  if s.monitored_frame = none ∨ s.monitored_frame ≠ some env.frame_current then
    frameChangeStep env s
  else if s.pending_active then pendingStep env s
  else detectStep env s

/-- `_watch_timer` including its early returns and its `try/except`: the body's
outcome is passed explicitly, `Except.ok` for a normal run of `watchBody`,
`Except.error s2` for an iteration that raised after leaving the globals in
state `s2`.  Returns the new state together with the value returned to
Blender's timer system (`none` models `return None`). -/
def watchTimerFrom (s : GuideState) (body : Except GuideState GuideState) :
    GuideState × Option Rat :=
  if !s.timer_keep then (s, none)
  else if !s.draw_handle then ({ s with timer_keep := false }, none)
  else
    match body with
    | Except.ok s2 => (s2, some pollInterval)
    | Except.error s2 => (s2, some pollInterval)

/-- `_watch_timer` on a poll whose body runs without raising. -/
def watch_timer (env : WatchEnv) (s : GuideState) : GuideState × Option Rat :=
  watchTimerFrom s (Except.ok (watchBody env s))

/-- A sequence of polls, oldest observation first. -/
def runPolls (obs : List WatchEnv) (s : GuideState) : GuideState :=
  obs.foldl (fun st e => watchBody e st) s

/-- An observation, taken in state `s`, that the spec's debounce property says
must not advance the index: advance-on-release mode, monitored frame
unchanged, stroke count unchanged (relative to the pending target when a
pending commit is active, to the last-seen count otherwise), and — when a
pending commit is active — either the last stroke's point count changed or
less than the debounce interval elapsed since the last observed change. -/
def noCommitObs (env : WatchEnv) (s : GuideState) : Bool :=
  env.gi_advance_on_release
  && decide (s.monitored_frame = some env.frame_current)
  && decide (env.frame_stroke_count =
       (if s.pending_active then s.pending_target else s.last_current_frame_count))
  && (!s.pending_active
      || decide (env.last_stroke_pointlen ≠ s.pending_last_pointlen)
      || decide (env.now - s.pending_time < debounce_seconds))

/-- A whole trace of such observations, each judged in the state the previous
polls produced. -/
def noCommitTrace : List WatchEnv → GuideState → Bool
  | [], _ => true
  | e :: rest, s => noCommitObs e s && noCommitTrace rest (watchBody e s)

/-- Report level of `Operator.report` (`WARNING`, `ERROR`, `INFO`). -/
inductive ReportLevel where
  | warning
  | error
  | info
deriving DecidableEq, Repr

/-- Operator return value: `{'FINISHED'}` or `{'CANCELLED'}`. -/
inductive OpResult where
  | finished
  | cancelled
deriving DecidableEq, Repr

/-- Outcome of an operator execution: the new global state, the return value,
and the report it issued. -/
structure ExecOut where
  state : GuideState
  result : OpResult
  report : Option (ReportLevel × String)
deriving DecidableEq, Repr

/-- Environment observed by `GP_OT_GuideStart.execute`: whether
`get_active_gp(context)` finds a Grease Pencil object, the snapshot returned
by `get_previous_frame_strokes_world(context)`, `context.scene.frame_current`,
`get_frame_stroke_count(context, _monitored_frame)`, and whether
`SpaceView3D.draw_handler_add` succeeds. -/
structure StartEnv where
  active_gp : Bool
  prev_strokes : List GStroke
  frame_current : Int
  frame_stroke_count : Nat
  handler_add_ok : Bool
deriving DecidableEq, Repr

/-- `GP_OT_GuideStart.execute`. -/
def GP_OT_GuideStart_execute (env : StartEnv) (s : GuideState) : ExecOut :=
  if !env.active_gp then
    { state := s, result := OpResult.cancelled,
      report := some (ReportLevel.warning, "Select a Grease Pencil object first") }
  else if env.prev_strokes.isEmpty then
    { state := s, result := OpResult.cancelled,
      report := some (ReportLevel.warning, "No strokes found in previous frame") }
  else
    let s1 : GuideState :=
      { s with guide_strokes_world := env.prev_strokes,
               monitored_frame := some env.frame_current,
               last_current_frame_count := env.frame_stroke_count,
               guide_index := min env.frame_stroke_count (env.prev_strokes.length - 1),
               pending_active := false,
               advances_since_check := 0 }
    if !s1.draw_handle && !env.handler_add_ok then
      { state := s1, result := OpResult.cancelled,
        report := some (ReportLevel.error, "Failed to add handler (see console)") }
    else
      let s2 := if !s1.draw_handle then { s1 with draw_handle := true } else s1
      { state := { s2 with timer_keep := true }, result := OpResult.finished,
        report := some (ReportLevel.info,
          "Guides started — " ++ toString s2.guide_strokes_world.length ++
          " hints loaded; monitoring frame " ++ toString env.frame_current) }

/-- `GP_OT_GuideStop.execute`. -/
def GP_OT_GuideStop_execute (s : GuideState) : ExecOut :=
  let s1 := if s.draw_handle then { s with draw_handle := false } else s
  let s2 : GuideState :=
    { s1 with timer_keep := false, guide_strokes_world := [],
              monitored_frame := none, pending_active := false }
  { state := s2, result := OpResult.finished,
    report := some (ReportLevel.info, "Guides stopped") }

/-- The position at which `draw_guides` reads the cached stroke list:
`idx = max(0, min(_guide_index, len(_guide_strokes_world)-1))`. -/
def drawAccessPos (gi : Nat) (strokes : List GStroke) : Nat :=
  max 0 (min gi (strokes.length - 1))

/-- `draw_guides` up to its single list access: `none` models an early return
with no access (empty list, or missing region / region data); otherwise the
accessed position and the stroke read there. -/
def draw_guides (regionOk : Bool) (strokes : List GStroke) (gi : Nat) :
    Option (Nat × GStroke) :=
  if strokes.isEmpty then none
  else if !regionOk then none
  else some (drawAccessPos gi strokes, strokes.getD (drawAccessPos gi strokes) [])

/-- A one-point guide stroke used to build concrete states. -/
def exStroke : GStroke := [{ x := 0, y := 0, z := 0 }]

/-- A running session: three cached guide strokes, index 0, monitoring
frame 1, nothing pending. -/
def baseState : GuideState :=
  { draw_handle := true, timer_keep := true,
    guide_strokes_world := [exStroke, exStroke, exStroke],
    guide_index := 0, monitored_frame := some 1,
    last_current_frame_count := 0, pending_active := false,
    pending_target := 0, pending_time := 0, pending_last_pointlen := 0,
    advances_since_check := 0 }

/-- A baseline poll observation on frame 1 with no strokes drawn yet. -/
def baseEnv : WatchEnv :=
  { frame_current := 1, frame_stroke_count := 0, last_stroke_pointlen := 0,
    now := 1, gi_lock_frame := false, gi_advance_on_release := false,
    gi_integrity_check := 3, fresh_snapshot := [exStroke] }

/-! ## Helper lemmas -/

/-- Unfolding of `_watch_timer`'s body when the frame did not change. -/
theorem watchBody_frame_eq (e : WatchEnv) (s : GuideState)
    (h : s.monitored_frame = some e.frame_current) :
    watchBody e s = if s.pending_active then pendingStep e s else detectStep e s := by
  unfold watchBody
  rw [if_neg]
  rw [h]
  simp

theorem advanceStep_guide_index (interval : Nat) (fresh : List GStroke)
    (added target : Nat) (s : GuideState) :
    (advanceStep interval fresh added target s).guide_index =
      min (s.guide_index + added) (s.guide_strokes_world.length - 1) := by
  simp only [advanceStep]
  by_cases h : interval ≤ s.advances_since_check + added
  · rw [if_pos h]
  · rw [if_neg h]

theorem advanceStep_last (interval : Nat) (fresh : List GStroke)
    (added target : Nat) (s : GuideState) :
    (advanceStep interval fresh added target s).last_current_frame_count = target := by
  simp only [advanceStep]
  by_cases h : interval ≤ s.advances_since_check + added
  · rw [if_pos h]
  · rw [if_neg h]

theorem advanceStep_asc (interval : Nat) (fresh : List GStroke)
    (added target : Nat) (s : GuideState) :
    (advanceStep interval fresh added target s).advances_since_check =
      if interval ≤ s.advances_since_check + added then 0
      else s.advances_since_check + added := by
  simp only [advanceStep]
  by_cases h : interval ≤ s.advances_since_check + added
  · rw [if_pos h, if_pos h]
  · rw [if_neg h, if_neg h]

theorem advanceStep_strokes (interval : Nat) (fresh : List GStroke)
    (added target : Nat) (s : GuideState) :
    (advanceStep interval fresh added target s).guide_strokes_world =
      if interval ≤ s.advances_since_check + added then fresh
      else s.guide_strokes_world := by
  simp only [advanceStep]
  by_cases h : interval ≤ s.advances_since_check + added
  · rw [if_pos h, if_pos h]
  · rw [if_neg h, if_neg h]

theorem advanceStep_pending (interval : Nat) (fresh : List GStroke)
    (added target : Nat) (s : GuideState) :
    (advanceStep interval fresh added target s).pending_active = s.pending_active := by
  simp only [advanceStep]
  by_cases h : interval ≤ s.advances_since_check + added
  · rw [if_pos h]
  · rw [if_neg h]

theorem advanceStep_monitored (interval : Nat) (fresh : List GStroke)
    (added target : Nat) (s : GuideState) :
    (advanceStep interval fresh added target s).monitored_frame = s.monitored_frame := by
  simp only [advanceStep]
  by_cases h : interval ≤ s.advances_since_check + added
  · rw [if_pos h]
  · rw [if_neg h]

/-! ## Claims -/

/-- C7: on a poll where the current frame differs from the monitored frame and
`gi_lock_frame` is enabled (with a monitored frame set), `_watch_timer` only
resynchronizes the last-seen stroke count to the new frame's count and clears
the pending flag; the monitored frame, guide index, cached stroke list and
integrity counter (and all other fields) are unchanged. -/
theorem lock_frame_change_resync_only (e : WatchEnv) (s : GuideState) (m : Int)
    (hm : s.monitored_frame = some m) (hne : m ≠ e.frame_current)
    (hlock : e.gi_lock_frame = true) :
    watchBody e s =
      { s with last_current_frame_count := e.frame_stroke_count,
               pending_active := false } := by
  have h1 : s.monitored_frame = none ∨ s.monitored_frame ≠ some e.frame_current := by
    right
    rw [hm]
    simpa using hne
  have h2 : (e.gi_lock_frame = true) ∧ s.monitored_frame ≠ none := by
    refine ⟨hlock, ?_⟩
    rw [hm]
    simp
  unfold watchBody frameChangeStep
  rw [if_pos h1, if_pos h2]

/-- C7 witness. -/
theorem lock_frame_change_resync_only_witness :
    ({ baseState with monitored_frame := some 1 } : GuideState).monitored_frame = some 1 ∧
    (1 : Int) ≠ ({ baseEnv with frame_current := 2, gi_lock_frame := true } : WatchEnv).frame_current ∧
    ({ baseEnv with frame_current := 2, gi_lock_frame := true } : WatchEnv).gi_lock_frame = true ∧
    watchBody { baseEnv with frame_current := 2, gi_lock_frame := true }
        { baseState with monitored_frame := some 1 } =
      { ({ baseState with monitored_frame := some 1 } : GuideState) with
          last_current_frame_count :=
            ({ baseEnv with frame_current := 2, gi_lock_frame := true } : WatchEnv).frame_stroke_count,
          pending_active := false } :=
  ⟨rfl, by decide, rfl,
    lock_frame_change_resync_only _ _ 1 rfl (by decide) rfl⟩

/-- C8: on a poll with the keep-running flag set and a draw handler present,
whatever the body's outcome (normal or an exception leaving the globals in any
state), `_watch_timer` returns its normal reschedule interval `0.12`; no
exception propagates and a failing poll never terminates the loop. -/
theorem poll_exception_returns_interval (s : GuideState)
    (body : Except GuideState GuideState)
    (hk : s.timer_keep = true) (hh : s.draw_handle = true) :
    (watchTimerFrom s body).2 = some pollInterval := by
  unfold watchTimerFrom
  rw [hk, hh]
  cases body <;> rfl

/-- C8 witness: a poll whose body raised still reschedules at 0.12 s. -/
theorem poll_exception_returns_interval_witness :
    baseState.timer_keep = true ∧ baseState.draw_handle = true ∧
    (watchTimerFrom baseState (Except.error baseState)).2 = some pollInterval :=
  ⟨rfl, rfl, poll_exception_returns_interval baseState (Except.error baseState) rfl rfl⟩

/-- C9: the stop command is idempotent — running `GP_OT_GuideStop.execute` on
the state produced by a first stop yields exactly the same outcome (state,
return value and report) as the first stop. -/
theorem stop_idempotent (s : GuideState) :
    GP_OT_GuideStop_execute (GP_OT_GuideStop_execute s).state =
      GP_OT_GuideStop_execute s := by
  cases s with
  | mk dh tk gs gi mf lc pa pt ptime pl asc =>
    cases dh <;> rfl

/-- C10: the renderer accesses the cached stroke list only at position
`max(0, min(_guide_index, len-1))`, which is in bounds whenever the list is
non-empty — for every guide index value, including ones at or past the list
length — and it returns without drawing (and without any access) when the
list is empty. -/
theorem draw_guides_access_safe :
    (∀ (r : Bool) (strokes : List GStroke) (gi : Nat),
      strokes = [] → draw_guides r strokes gi = none) ∧
    (∀ (strokes : List GStroke) (gi : Nat),
      strokes ≠ [] → drawAccessPos gi strokes < strokes.length) ∧
    (∀ (r : Bool) (strokes : List GStroke) (gi : Nat) (p : Nat × GStroke),
      draw_guides r strokes gi = some p →
      p.1 = drawAccessPos gi strokes ∧ p.1 < strokes.length) := by
  have hpos : ∀ (strokes : List GStroke) (gi : Nat),
      strokes ≠ [] → drawAccessPos gi strokes < strokes.length := by
    intro strokes gi h
    have : 0 < strokes.length := List.length_pos.mpr h
    unfold drawAccessPos
    omega
  refine ⟨?_, hpos, ?_⟩
  · intro r strokes gi h
    subst h
    rfl
  · intro r strokes gi p h
    unfold draw_guides at h
    by_cases hemp : strokes.isEmpty
    · rw [if_pos hemp] at h
      exact absurd h (by simp)
    · rw [if_neg hemp] at h
      by_cases hr : !r
      · rw [if_pos hr] at h
        exact absurd h (by simp)
      · rw [if_neg hr] at h
        have hp : p = (drawAccessPos gi strokes, strokes.getD (drawAccessPos gi strokes) []) := by
          exact (Option.some_inj.mp h).symm
        have hne : strokes ≠ [] := by
          intro hcon
          exact hemp (by simp [hcon])
        exact ⟨by rw [hp], by rw [hp]; exact hpos strokes gi hne⟩

/-- C10 witness: index 7 on a 3-stroke list is clamped to position 2. -/
theorem draw_guides_access_safe_witness :
    ([exStroke] : List GStroke) ≠ [] ∧
    drawAccessPos 7 [exStroke, exStroke, exStroke] < 3 ∧
    draw_guides true [] 7 = none ∧
    (draw_guides true [exStroke, exStroke, exStroke] 7 =
      some (2, exStroke) → (2 : Nat) = drawAccessPos 7 [exStroke, exStroke, exStroke] ∧ 2 < 3) :=
  ⟨by decide,
   draw_guides_access_safe.2.1 [exStroke, exStroke, exStroke] 7 (by decide),
   draw_guides_access_safe.1 true [] 7 rfl,
   fun h => draw_guides_access_safe.2.2 true [exStroke, exStroke, exStroke] 7 (2, exStroke) h⟩

/-- Reduction of the pending-commit branch on a committing poll with a
positive `added`. -/
theorem pendingStep_commit (e : WatchEnv) (s : GuideState)
    (hc : e.frame_stroke_count = s.pending_target)
    (hl : e.last_stroke_pointlen = s.pending_last_pointlen)
    (hd : debounce_seconds ≤ e.now - s.pending_time)
    (ha : s.last_current_frame_count < s.pending_target) :
    pendingStep e s =
      { advanceStep e.gi_integrity_check e.fresh_snapshot
          (s.pending_target - s.last_current_frame_count) s.pending_target s with
        pending_active := false } := by
  have htn : ((s.pending_target : Int) - (s.last_current_frame_count : Int)).toNat =
      s.pending_target - s.last_current_frame_count := by omega
  simp only [pendingStep]
  rw [if_neg (by simp [hc]), if_neg (by simp [hl]), if_pos hd,
    if_pos (by omega : (0 : Int) < (s.pending_target : Int) - (s.last_current_frame_count : Int)),
    htn]

/-- Reduction of the normal-detection branch on an immediate advance. -/
theorem detectStep_advance (e : WatchEnv) (s : GuideState)
    (hgt : s.last_current_frame_count < e.frame_stroke_count)
    (hrel : e.gi_advance_on_release = false) :
    detectStep e s =
      advanceStep e.gi_integrity_check e.fresh_snapshot
        (e.frame_stroke_count - s.last_current_frame_count)
        e.frame_stroke_count s := by
  simp only [detectStep]
  rw [if_pos hgt, if_neg (by simp [hrel])]

/-- C2: the advance logic increments the integrity counter by `added` and
resets it to zero exactly when the incremented counter reaches (or, on a
multi-stroke add, jumps past) the configured threshold, at which moment — and
only then — the cached stroke list is replaced by the fresh snapshot; after
every poll the counter stays strictly below the threshold, and within a
session a poll replaces the stroke list only together with a counter reset. -/
theorem integrity_reset_and_replace :
    (∀ (interval : Nat) (fresh : List GStroke) (added target : Nat) (s : GuideState),
      1 ≤ interval → s.advances_since_check < interval → 0 < added →
      (((advanceStep interval fresh added target s).advances_since_check = 0 ∧
        (advanceStep interval fresh added target s).guide_strokes_world = fresh) ↔
          interval ≤ s.advances_since_check + added) ∧
      (interval ≤ s.advances_since_check + added ∨
        ((advanceStep interval fresh added target s).guide_strokes_world =
            s.guide_strokes_world ∧
          (advanceStep interval fresh added target s).advances_since_check =
            s.advances_since_check + added)) ∧
      (advanceStep interval fresh added target s).advances_since_check < interval) ∧
    (∀ (e : WatchEnv) (s : GuideState),
      1 ≤ e.gi_integrity_check →
      s.advances_since_check < e.gi_integrity_check →
      (watchBody e s).advances_since_check < e.gi_integrity_check) ∧
    (∀ (e : WatchEnv) (s : GuideState),
      (watchBody e s).guide_strokes_world ≠ s.guide_strokes_world →
      (watchBody e s).guide_strokes_world = e.fresh_snapshot ∧
      (watchBody e s).advances_since_check = 0) := by
  refine ⟨?_, ?_, ?_⟩
  · intro interval fresh added target s h1 h2 h3
    rw [advanceStep_asc, advanceStep_strokes]
    by_cases hi : interval ≤ s.advances_since_check + added
    · rw [if_pos hi, if_pos hi]
      exact ⟨by simp [hi], Or.inl hi, by omega⟩
    · rw [if_neg hi, if_neg hi]
      refine ⟨⟨fun hcon => absurd hcon.1 (by omega), fun hcon => absurd hcon hi⟩,
        Or.inr ⟨rfl, rfl⟩, by omega⟩
  · intro e s h1 h2
    unfold watchBody
    by_cases hf : s.monitored_frame = none ∨ s.monitored_frame ≠ some e.frame_current
    · rw [if_pos hf]
      unfold frameChangeStep
      by_cases hl : (e.gi_lock_frame = true) ∧ s.monitored_frame ≠ none
      · rw [if_pos hl]; exact h2
      · rw [if_neg hl]; exact h2
    · rw [if_neg hf]
      by_cases hp : s.pending_active = true
      · rw [if_pos hp]
        simp only [pendingStep]
        by_cases hc : e.frame_stroke_count ≠ s.pending_target
        · rw [if_pos hc]; exact h2
        · rw [if_neg hc]
          by_cases hl2 : e.last_stroke_pointlen ≠ s.pending_last_pointlen
          · rw [if_pos hl2]; exact h2
          · rw [if_neg hl2]
            by_cases hd : debounce_seconds ≤ e.now - s.pending_time
            · rw [if_pos hd]
              by_cases ha : (0 : Int) <
                  (s.pending_target : Int) - (s.last_current_frame_count : Int)
              · rw [if_pos ha]
                dsimp only
                rw [advanceStep_asc]
                split <;> omega
              · rw [if_neg ha]; exact h2
            · rw [if_neg hd]; exact h2
      · rw [if_neg hp]
        simp only [detectStep]
        by_cases hgt : s.last_current_frame_count < e.frame_stroke_count
        · rw [if_pos hgt]
          by_cases hrel : e.gi_advance_on_release = true
          · rw [if_pos hrel]; exact h2
          · rw [if_neg hrel]
            rw [advanceStep_asc]
            split <;> omega
        · rw [if_neg hgt]
          by_cases hlt : e.frame_stroke_count < s.last_current_frame_count
          · rw [if_pos hlt]; exact h2
          · rw [if_neg hlt]; exact h2
  · intro e s hne
    unfold watchBody at hne ⊢
    by_cases hf : s.monitored_frame = none ∨ s.monitored_frame ≠ some e.frame_current
    · rw [if_pos hf] at hne ⊢
      unfold frameChangeStep at hne ⊢
      by_cases hl : (e.gi_lock_frame = true) ∧ s.monitored_frame ≠ none
      · rw [if_pos hl] at hne ⊢; exact absurd rfl hne
      · rw [if_neg hl] at hne ⊢; exact absurd rfl hne
    · rw [if_neg hf] at hne ⊢
      by_cases hp : s.pending_active = true
      · rw [if_pos hp] at hne ⊢
        simp only [pendingStep] at hne ⊢
        by_cases hc : e.frame_stroke_count ≠ s.pending_target
        · rw [if_pos hc] at hne ⊢; exact absurd rfl hne
        · rw [if_neg hc] at hne ⊢
          by_cases hl2 : e.last_stroke_pointlen ≠ s.pending_last_pointlen
          · rw [if_pos hl2] at hne ⊢; exact absurd rfl hne
          · rw [if_neg hl2] at hne ⊢
            by_cases hd : debounce_seconds ≤ e.now - s.pending_time
            · rw [if_pos hd] at hne ⊢
              by_cases ha : (0 : Int) <
                  (s.pending_target : Int) - (s.last_current_frame_count : Int)
              · rw [if_pos ha] at hne ⊢
                dsimp only at hne ⊢
                rw [advanceStep_strokes] at hne
                rw [advanceStep_strokes, advanceStep_asc]
                by_cases hi : e.gi_integrity_check ≤ s.advances_since_check +
                    ((s.pending_target : Int) - (s.last_current_frame_count : Int)).toNat
                · rw [if_pos hi, if_pos hi]
                  exact ⟨rfl, rfl⟩
                · rw [if_neg hi] at hne
                  exact absurd rfl hne
              · rw [if_neg ha] at hne ⊢; exact absurd rfl hne
            · rw [if_neg hd] at hne ⊢; exact absurd rfl hne
      · rw [if_neg hp] at hne ⊢
        simp only [detectStep] at hne ⊢
        by_cases hgt : s.last_current_frame_count < e.frame_stroke_count
        · rw [if_pos hgt] at hne ⊢
          by_cases hrel : e.gi_advance_on_release = true
          · rw [if_pos hrel] at hne ⊢; exact absurd rfl hne
          · rw [if_neg hrel] at hne ⊢
            rw [advanceStep_strokes] at hne
            rw [advanceStep_strokes, advanceStep_asc]
            by_cases hi : e.gi_integrity_check ≤ s.advances_since_check +
                (e.frame_stroke_count - s.last_current_frame_count)
            · rw [if_pos hi, if_pos hi]
              exact ⟨rfl, rfl⟩
            · rw [if_neg hi] at hne
              exact absurd rfl hne
        · rw [if_neg hgt] at hne ⊢
          by_cases hlt : e.frame_stroke_count < s.last_current_frame_count
          · rw [if_pos hlt] at hne ⊢; exact absurd rfl hne
          · rw [if_neg hlt] at hne ⊢; exact absurd rfl hne

/-- State for the C2 witness: integrity counter at 2 with threshold 3. -/
def c2s : GuideState := { baseState with advances_since_check := 2 }

/-- C2 witness: one more single-stroke advance reaches the threshold 3 and the
counter resets; a no-op poll keeps the counter below the threshold. -/
theorem integrity_reset_and_replace_witness :
    ((1 : Nat) ≤ 3 ∧ c2s.advances_since_check < 3 ∧ (0 : Nat) < 1) ∧
    (advanceStep 3 [exStroke] 1 1 c2s).advances_since_check < 3 ∧
    ((1 : Nat) ≤ baseEnv.gi_integrity_check ∧
      baseState.advances_since_check < baseEnv.gi_integrity_check) ∧
    (watchBody baseEnv baseState).advances_since_check < baseEnv.gi_integrity_check :=
  ⟨⟨by decide, by decide, by decide⟩,
   (integrity_reset_and_replace.1 3 [exStroke] 1 1 c2s
      (by decide) (by decide) (by decide)).2.2,
   ⟨by decide, by decide⟩,
   integrity_reset_and_replace.2.1 baseEnv baseState (by decide) (by decide)⟩

/-- C4: on every advancing poll — immediate mode, or resolution of a pending
commit — with `added` strictly positive, the new guide index is
`min(old index + added, len(strokes) - 1)` (the applied delta is `added`
clamped at the list's upper bound, against the list cached when the index was
updated) and the last-seen stroke count is set to the new count. -/
theorem advance_delta_clamped :
    (∀ (e : WatchEnv) (s : GuideState),
      s.monitored_frame = some e.frame_current → s.pending_active = false →
      s.last_current_frame_count < e.frame_stroke_count →
      e.gi_advance_on_release = false →
      (watchBody e s).guide_index =
        min (s.guide_index + (e.frame_stroke_count - s.last_current_frame_count))
          (s.guide_strokes_world.length - 1) ∧
      (watchBody e s).last_current_frame_count = e.frame_stroke_count) ∧
    (∀ (e : WatchEnv) (s : GuideState),
      s.monitored_frame = some e.frame_current → s.pending_active = true →
      e.frame_stroke_count = s.pending_target →
      e.last_stroke_pointlen = s.pending_last_pointlen →
      debounce_seconds ≤ e.now - s.pending_time →
      s.last_current_frame_count < s.pending_target →
      (watchBody e s).guide_index =
        min (s.guide_index + (s.pending_target - s.last_current_frame_count))
          (s.guide_strokes_world.length - 1) ∧
      (watchBody e s).last_current_frame_count = s.pending_target) := by
  constructor
  · intro e s hm hp hgt hrel
    rw [watchBody_frame_eq e s hm, if_neg (by simp [hp]),
      detectStep_advance e s hgt hrel, advanceStep_guide_index, advanceStep_last]
    exact ⟨rfl, rfl⟩
  · intro e s hm hp hc hl hd ha
    rw [watchBody_frame_eq e s hm, if_pos hp,
      pendingStep_commit e s hc hl hd ha]
    dsimp only
    rw [advanceStep_guide_index, advanceStep_last]
    exact ⟨rfl, rfl⟩

/-- Poll observation for the C4 immediate-advance witness: one stroke drawn. -/
def c4e1 : WatchEnv := { baseEnv with frame_stroke_count := 1 }

/-- Poll observation for the C4 pending-commit witness: count stable at the
pending target, point count stable, debounce elapsed. -/
def c4e2 : WatchEnv :=
  { baseEnv with frame_stroke_count := 1, last_stroke_pointlen := 4,
                 gi_advance_on_release := true, now := 1 }

/-- Session state for the C4 pending-commit witness. -/
def c4s2 : GuideState :=
  { baseState with pending_active := true, pending_target := 1,
                   pending_time := 0, pending_last_pointlen := 4 }

/-- C4 witness: an immediate advance and a pending-commit resolution both set
the index to `min(old + added, len - 1)` and the last-seen count to the new
count. -/
theorem advance_delta_clamped_witness :
    (baseState.last_current_frame_count < c4e1.frame_stroke_count ∧
      (watchBody c4e1 baseState).guide_index =
        min (baseState.guide_index +
              (c4e1.frame_stroke_count - baseState.last_current_frame_count))
          (baseState.guide_strokes_world.length - 1) ∧
      (watchBody c4e1 baseState).last_current_frame_count = c4e1.frame_stroke_count) ∧
    (debounce_seconds ≤ c4e2.now - c4s2.pending_time ∧
      c4s2.last_current_frame_count < c4s2.pending_target ∧
      (watchBody c4e2 c4s2).guide_index =
        min (c4s2.guide_index +
              (c4s2.pending_target - c4s2.last_current_frame_count))
          (c4s2.guide_strokes_world.length - 1) ∧
      (watchBody c4e2 c4s2).last_current_frame_count = c4s2.pending_target) := by
  have hd : debounce_seconds ≤ c4e2.now - c4s2.pending_time := by
    norm_num [debounce_seconds, c4e2, c4s2, baseEnv, baseState]
  refine ⟨⟨by decide, ?_, ?_⟩, hd, by decide, ?_, ?_⟩
  · exact (advance_delta_clamped.1 c4e1 baseState rfl rfl (by decide) rfl).1
  · exact (advance_delta_clamped.1 c4e1 baseState rfl rfl (by decide) rfl).2
  · exact (advance_delta_clamped.2 c4e2 c4s2 rfl rfl rfl rfl hd (by decide)).1
  · exact (advance_delta_clamped.2 c4e2 c4s2 rfl rfl rfl rfl hd (by decide)).2

/-- Session state for the C6 counterexample: a pending commit is active
(target 4) and the user then removes strokes (live count 2 < last-seen 3). -/
def c6s : GuideState :=
  { baseState with pending_active := true, pending_target := 4,
                   last_current_frame_count := 3, guide_index := 1 }

/-- Poll observation for the C6 counterexample. -/
def c6e : WatchEnv :=
  { baseEnv with frame_stroke_count := 2, gi_advance_on_release := true,
                 last_stroke_pointlen := 5, now := 10 }

/-- C6 (counterexample): on a poll with live count (2) below the last-seen
count (3) while a pending commit is active, the watcher does NOT clear the
pending commit and does NOT resynchronize the last-seen count — it stays in
the pending state and merely retargets it, contradicting the claim's "for
every poll ... regardless of mode". -/
theorem removal_counterexample :
    c6e.frame_stroke_count < c6s.last_current_frame_count ∧
    (watchBody c6e c6s).pending_active = true ∧
    (watchBody c6e c6s).last_current_frame_count ≠ c6e.frame_stroke_count := by
  decide

/-- C6 (amended): on every poll with the monitored frame unchanged and no
pending commit active, a drop of the live count below the last-seen count
immediately (no debounce) resynchronizes the last-seen count to the live
count, leaves the pending flag cleared, keeps the stroke list, monitored
frame and integrity counter, and sets the index to
`min(live_count, len(strokes)-1)` when the list is non-empty — in either
advance mode.  (When a pending commit is active, the removal instead
retargets the pending commit, whose later resolution applies no advance.) -/
theorem removal_resync_amended (e : WatchEnv) (s : GuideState)
    (hm : s.monitored_frame = some e.frame_current)
    (hp : s.pending_active = false)
    (hlt : e.frame_stroke_count < s.last_current_frame_count) :
    (watchBody e s).pending_active = false ∧
    (watchBody e s).last_current_frame_count = e.frame_stroke_count ∧
    (watchBody e s).guide_strokes_world = s.guide_strokes_world ∧
    (watchBody e s).monitored_frame = s.monitored_frame ∧
    (watchBody e s).advances_since_check = s.advances_since_check ∧
    (s.guide_strokes_world ≠ [] →
      (watchBody e s).guide_index =
        min e.frame_stroke_count (s.guide_strokes_world.length - 1)) := by
  rw [watchBody_frame_eq e s hm, if_neg (by simp [hp])]
  simp only [detectStep]
  rw [if_neg (by omega), if_pos hlt]
  refine ⟨rfl, rfl, rfl, rfl, rfl, fun hne => ?_⟩
  dsimp only
  rw [if_neg (by simp_all)]

/-- State for the C6 amended witness: last-seen count 2, index 2. -/
def c6ws : GuideState :=
  { baseState with last_current_frame_count := 2, guide_index := 2 }

/-- Poll observation for the C6 amended witness: live count dropped to 1. -/
def c6we : WatchEnv := { baseEnv with frame_stroke_count := 1 }

/-- C6 (amended) witness: an undo from 2 strokes to 1 resynchronizes
immediately and clamps the index. -/
theorem removal_resync_amended_witness :
    c6we.frame_stroke_count < c6ws.last_current_frame_count ∧
    (watchBody c6we c6ws).pending_active = false ∧
    (watchBody c6we c6ws).last_current_frame_count = c6we.frame_stroke_count ∧
    (c6ws.guide_strokes_world ≠ [] →
      (watchBody c6we c6ws).guide_index =
        min c6we.frame_stroke_count (c6ws.guide_strokes_world.length - 1)) := by
  have h := removal_resync_amended c6we c6ws rfl rfl (by decide)
  exact ⟨by decide, h.1, h.2.1, h.2.2.2.2.2⟩

/-- Session state for the C1 counterexample: three cached strokes, index 2
(in bounds), integrity counter about to trigger with threshold 1. -/
def c1s : GuideState := { baseState with guide_index := 2 }

/-- Poll observation for the C1 counterexample: one stroke added in immediate
mode, integrity threshold 1, fresh snapshot shorter (one stroke) than the
cached list (three strokes). -/
def c1e : WatchEnv :=
  { baseEnv with frame_stroke_count := 1, gi_integrity_check := 1 }

/-- C1 (counterexample): starting from a state satisfying the invariant
(`index 2 < len 3`), a single immediate advance whose integrity check replaces
the cached list by a shorter snapshot (length 1) leaves the index (2) at or
past the new length: the invariant `0 <= index < len(strokes)` fails after an
integrity-triggered stroke-list replacement. -/
theorem index_in_bounds_counterexample :
    (c1s.guide_strokes_world ≠ [] →
      c1s.guide_index < c1s.guide_strokes_world.length) ∧
    (watchBody c1e c1s).guide_strokes_world ≠ [] ∧
    ¬ ((watchBody c1e c1s).guide_index <
        (watchBody c1e c1s).guide_strokes_world.length) := by
  decide

/-- C1 (amended): after every watcher poll transition the guide index
satisfies `0 <= index < len(strokes)` whenever the cached stroke list is
non-empty afterwards — for any sequence of stroke add/remove events —
provided the invariant held before the poll and any integrity-triggered
snapshot replacement installs a list at least as long as the cached one.  (A
replacement by a strictly shorter snapshot can leave the index at or past the
new length; the renderer clamps defensively.)  `0 <= index` holds by
construction: every index written by the source is a `min`/`max` of
non-negative quantities. -/
theorem index_in_bounds_amended (e : WatchEnv) (s : GuideState)
    (hpre : s.guide_strokes_world ≠ [] →
      s.guide_index < s.guide_strokes_world.length)
    (hfresh : s.guide_strokes_world.length ≤ e.fresh_snapshot.length) :
    (watchBody e s).guide_strokes_world ≠ [] →
      (watchBody e s).guide_index < (watchBody e s).guide_strokes_world.length := by
  intro hne
  unfold watchBody at hne ⊢
  by_cases hf : s.monitored_frame = none ∨ s.monitored_frame ≠ some e.frame_current
  · rw [if_pos hf] at hne ⊢
    unfold frameChangeStep at hne ⊢
    by_cases hl : (e.gi_lock_frame = true) ∧ s.monitored_frame ≠ none
    · rw [if_pos hl] at hne ⊢
      exact hpre hne
    · rw [if_neg hl] at hne ⊢
      dsimp only at hne ⊢
      by_cases hemp : s.guide_strokes_world.isEmpty = true
      · exact absurd (by simpa using hemp) hne
      · rw [if_neg hemp]
        have hlen : 0 < s.guide_strokes_world.length :=
          List.length_pos.mpr (by simpa using hemp)
        omega
  · rw [if_neg hf] at hne ⊢
    by_cases hp : s.pending_active = true
    · rw [if_pos hp] at hne ⊢
      simp only [pendingStep] at hne ⊢
      by_cases hc : e.frame_stroke_count ≠ s.pending_target
      · rw [if_pos hc] at hne ⊢
        exact hpre hne
      · rw [if_neg hc] at hne ⊢
        by_cases hl2 : e.last_stroke_pointlen ≠ s.pending_last_pointlen
        · rw [if_pos hl2] at hne ⊢
          exact hpre hne
        · rw [if_neg hl2] at hne ⊢
          by_cases hd : debounce_seconds ≤ e.now - s.pending_time
          · rw [if_pos hd] at hne ⊢
            by_cases ha : (0 : Int) <
                (s.pending_target : Int) - (s.last_current_frame_count : Int)
            · rw [if_pos ha] at hne ⊢
              dsimp only at hne ⊢
              rw [advanceStep_strokes] at hne
              rw [advanceStep_guide_index, advanceStep_strokes]
              by_cases hi : e.gi_integrity_check ≤ s.advances_since_check +
                  ((s.pending_target : Int) - (s.last_current_frame_count : Int)).toNat
              · rw [if_pos hi] at hne ⊢
                have h1 : 0 < e.fresh_snapshot.length := List.length_pos.mpr hne
                omega
              · rw [if_neg hi] at hne ⊢
                have h1 : 0 < s.guide_strokes_world.length := List.length_pos.mpr hne
                omega
            · rw [if_neg ha] at hne ⊢
              exact hpre hne
          · rw [if_neg hd] at hne ⊢
            exact hpre hne
    · rw [if_neg hp] at hne ⊢
      simp only [detectStep] at hne ⊢
      by_cases hgt : s.last_current_frame_count < e.frame_stroke_count
      · rw [if_pos hgt] at hne ⊢
        by_cases hrel : e.gi_advance_on_release = true
        · rw [if_pos hrel] at hne ⊢
          exact hpre hne
        · rw [if_neg hrel] at hne ⊢
          rw [advanceStep_strokes] at hne
          rw [advanceStep_guide_index, advanceStep_strokes]
          by_cases hi : e.gi_integrity_check ≤ s.advances_since_check +
              (e.frame_stroke_count - s.last_current_frame_count)
          · rw [if_pos hi] at hne ⊢
            have h1 : 0 < e.fresh_snapshot.length := List.length_pos.mpr hne
            omega
          · rw [if_neg hi] at hne ⊢
            have h1 : 0 < s.guide_strokes_world.length := List.length_pos.mpr hne
            omega
      · rw [if_neg hgt] at hne ⊢
        by_cases hlt : e.frame_stroke_count < s.last_current_frame_count
        · rw [if_pos hlt] at hne ⊢
          dsimp only at hne ⊢
          by_cases hemp : s.guide_strokes_world.isEmpty = true
          · exact absurd (by simpa using hemp) hne
          · rw [if_neg hemp]
            have hlen : 0 < s.guide_strokes_world.length :=
              List.length_pos.mpr (by simpa using hemp)
            omega
        · rw [if_neg hlt] at hne ⊢
          exact hpre hne

/-- Poll observation for the C1 amended witness: one stroke added, integrity
threshold 3, fresh snapshot as long as the cached list. -/
def c1we : WatchEnv :=
  { baseEnv with frame_stroke_count := 1,
                 fresh_snapshot := [exStroke, exStroke, exStroke] }

/-- C1 (amended) witness: with a fresh snapshot no shorter than the cache, an
advance keeps the index in bounds. -/
theorem index_in_bounds_amended_witness :
    (baseState.guide_strokes_world ≠ [] →
      baseState.guide_index < baseState.guide_strokes_world.length) ∧
    baseState.guide_strokes_world.length ≤ c1we.fresh_snapshot.length ∧
    ((watchBody c1we baseState).guide_strokes_world ≠ [] →
      (watchBody c1we baseState).guide_index <
        (watchBody c1we baseState).guide_strokes_world.length) :=
  ⟨by decide, by decide,
   index_in_bounds_amended c1we baseState (by decide) (by decide)⟩

/-- Start environment for the C3 counterexample: a valid Grease Pencil object
and prior strokes, but `draw_handler_add` fails. -/
def c3e : StartEnv :=
  { active_gp := true, prev_strokes := [exStroke, exStroke], frame_current := 2,
    frame_stroke_count := 0, handler_add_ok := false }

/-- Pre-state for the C3 counterexample: no handler installed, stale session
variables (index 5) from an earlier session. -/
def c3s : GuideState :=
  { baseState with draw_handle := false, timer_keep := false, guide_index := 5 }

/-- C3 (counterexample): when the overlay draw handler cannot be installed,
the start command cancels — but the session variables were already
re-initialized before the handler attempt and are not restored: the guide
index (and stroke list, monitored frame, ...) differ from their values before
the command, contradicting "performs no state change" for this failure mode. -/
theorem start_failure_counterexample :
    c3s.draw_handle = false ∧ c3e.handler_add_ok = false ∧
    (GP_OT_GuideStart_execute c3e c3s).result = OpResult.cancelled ∧
    (GP_OT_GuideStart_execute c3e c3s).state.guide_index ≠ c3s.guide_index ∧
    (GP_OT_GuideStart_execute c3e c3s).state ≠ c3s := by
  decide

/-- C3 (amended): each failing start reports a human-readable warning/error
and cancels.  The two precondition failures (no active Grease Pencil object;
no strokes on a prior frame) perform no state change at all.  The
handler-installation failure retains no draw handler and leaves the
keep-running flag untouched, but the session variables have by then already
been overwritten with the new session's values and are not restored. -/
theorem start_failure_amended :
    (∀ (env : StartEnv) (s : GuideState), env.active_gp = false →
      GP_OT_GuideStart_execute env s =
        { state := s, result := OpResult.cancelled,
          report := some (ReportLevel.warning, "Select a Grease Pencil object first") }) ∧
    (∀ (env : StartEnv) (s : GuideState),
      env.active_gp = true → env.prev_strokes = [] →
      GP_OT_GuideStart_execute env s =
        { state := s, result := OpResult.cancelled,
          report := some (ReportLevel.warning, "No strokes found in previous frame") }) ∧
    (∀ (env : StartEnv) (s : GuideState),
      env.active_gp = true → env.prev_strokes ≠ [] → s.draw_handle = false →
      env.handler_add_ok = false →
      (GP_OT_GuideStart_execute env s).result = OpResult.cancelled ∧
      (GP_OT_GuideStart_execute env s).report =
        some (ReportLevel.error, "Failed to add handler (see console)") ∧
      (GP_OT_GuideStart_execute env s).state.draw_handle = false ∧
      (GP_OT_GuideStart_execute env s).state.timer_keep = s.timer_keep) := by
  refine ⟨?_, ?_, ?_⟩
  · intro env s h
    simp only [GP_OT_GuideStart_execute]
    rw [if_pos (by simp [h])]
  · intro env s h1 h2
    simp only [GP_OT_GuideStart_execute]
    rw [if_neg (by simp [h1]), if_pos (by simp [h2])]
  · intro env s h1 h2 h3 h4
    simp only [GP_OT_GuideStart_execute]
    rw [if_neg (by simp [h1]), if_neg (by simp [h2]), if_pos (by simp [h3, h4])]
    exact ⟨rfl, rfl, h3, rfl⟩

/-- C3 (amended) witness: the three failure modes at concrete inputs. -/
theorem start_failure_amended_witness :
    (GP_OT_GuideStart_execute { c3e with active_gp := false } c3s =
      { state := c3s, result := OpResult.cancelled,
        report := some (ReportLevel.warning, "Select a Grease Pencil object first") }) ∧
    (GP_OT_GuideStart_execute { c3e with prev_strokes := [] } c3s =
      { state := c3s, result := OpResult.cancelled,
        report := some (ReportLevel.warning, "No strokes found in previous frame") }) ∧
    ((GP_OT_GuideStart_execute c3e c3s).result = OpResult.cancelled ∧
      (GP_OT_GuideStart_execute c3e c3s).report =
        some (ReportLevel.error, "Failed to add handler (see console)") ∧
      (GP_OT_GuideStart_execute c3e c3s).state.draw_handle = false ∧
      (GP_OT_GuideStart_execute c3e c3s).state.timer_keep = c3s.timer_keep) :=
  ⟨start_failure_amended.1 { c3e with active_gp := false } c3s rfl,
   start_failure_amended.2.1 { c3e with prev_strokes := [] } c3s rfl rfl,
   start_failure_amended.2.2 c3e c3s rfl (by decide) rfl rfl⟩

/-- An observation within the debounce property's scope never moves the
index. -/
theorem noCommitObs_no_advance (e : WatchEnv) (s : GuideState)
    (h : noCommitObs e s = true) :
    (watchBody e s).guide_index = s.guide_index := by
  unfold noCommitObs at h
  simp only [Bool.and_eq_true, decide_eq_true_eq] at h
  obtain ⟨⟨⟨hrel, hm⟩, hcnt⟩, hd⟩ := h
  rw [watchBody_frame_eq e s hm]
  by_cases hp : s.pending_active = true
  · rw [if_pos hp]
    rw [if_pos hp] at hcnt
    simp only [pendingStep]
    rw [if_neg (by simp [hcnt])]
    by_cases hl : e.last_stroke_pointlen ≠ s.pending_last_pointlen
    · rw [if_pos hl]
    · have hB : e.now - s.pending_time < debounce_seconds := by
        rw [hp] at hd
        simp only [Bool.not_true, Bool.false_or, Bool.or_eq_true,
          decide_eq_true_eq] at hd
        exact hd.resolve_left hl
      rw [if_neg hl, if_neg (not_le.mpr hB)]
  · rw [if_neg hp]
    rw [if_neg hp] at hcnt
    simp only [detectStep]
    rw [if_neg (by omega), if_neg (by omega)]

/-- Over a whole trace of in-scope observations the index never moves. -/
theorem noCommitTrace_no_advance (obs : List WatchEnv) :
    ∀ s : GuideState, noCommitTrace obs s = true →
      (runPolls obs s).guide_index = s.guide_index := by
  induction obs with
  | nil =>
    intro s h
    rfl
  | cons e rest ih =>
    intro s h
    simp only [noCommitTrace, Bool.and_eq_true] at h
    have h1 := noCommitObs_no_advance e s h.1
    have h2 := ih (watchBody e s) h.2
    simp only [runPolls, List.foldl_cons] at h2 ⊢
    rw [h2, h1]

/-- C5: in advance-on-release mode, no poll — and no poll sequence — in which
the stroke count stays at its baseline and, while a commit is pending, the
last stroke's point count keeps changing or less than the debounce interval
has elapsed since the last observed change, ever moves the guide index; and
any poll that does move the index under a constant stroke count must be a
pending commit whose point-count sample was stable with the debounce interval
(0.35 s) elapsed. -/
theorem debounce_no_early_advance :
    (∀ (e : WatchEnv) (s : GuideState), noCommitObs e s = true →
      (watchBody e s).guide_index = s.guide_index) ∧
    (∀ (obs : List WatchEnv) (s : GuideState), noCommitTrace obs s = true →
      (runPolls obs s).guide_index = s.guide_index) ∧
    (∀ (e : WatchEnv) (s : GuideState),
      e.gi_advance_on_release = true →
      s.monitored_frame = some e.frame_current →
      e.frame_stroke_count =
        (if s.pending_active then s.pending_target else s.last_current_frame_count) →
      (watchBody e s).guide_index ≠ s.guide_index →
      s.pending_active = true ∧
      e.last_stroke_pointlen = s.pending_last_pointlen ∧
      debounce_seconds ≤ e.now - s.pending_time) := by
  refine ⟨fun e s h => noCommitObs_no_advance e s h,
    fun obs s h => noCommitTrace_no_advance obs s h, ?_⟩
  intro e s hrel hm hcnt hchg
  rw [watchBody_frame_eq e s hm] at hchg
  by_cases hp : s.pending_active = true
  · rw [if_pos hp] at hchg
    rw [if_pos hp] at hcnt
    simp only [pendingStep] at hchg
    rw [if_neg (by simp [hcnt])] at hchg
    by_cases hl : e.last_stroke_pointlen ≠ s.pending_last_pointlen
    · rw [if_pos hl] at hchg
      exact absurd rfl hchg
    · by_cases hdb : debounce_seconds ≤ e.now - s.pending_time
      · exact ⟨hp, not_ne_iff.mp hl, hdb⟩
      · rw [if_neg hl, if_neg hdb] at hchg
        exact absurd rfl hchg
  · rw [if_neg hp] at hchg
    rw [if_neg hp] at hcnt
    simp only [detectStep] at hchg
    rw [if_neg (by omega), if_neg (by omega)] at hchg
    exact absurd rfl hchg

/-- C5 witness state: a pending commit on target 1, point-count sample 3. -/
def c5s : GuideState :=
  { baseState with pending_active := true, pending_target := 1,
                   pending_last_pointlen := 3 }

/-- C5 witness observation: point count grew to 4, count stable. -/
def c5o1 : WatchEnv :=
  { baseEnv with gi_advance_on_release := true, frame_stroke_count := 1,
                 last_stroke_pointlen := 4, now := 2 }

/-- C5 witness observation: point count grew to 5, count stable. -/
def c5o2 : WatchEnv :=
  { baseEnv with gi_advance_on_release := true, frame_stroke_count := 1,
                 last_stroke_pointlen := 5, now := 3 }

/-- C5 witness state for the commit direction: stable sample 4, pending since
time 0. -/
def c5s3 : GuideState :=
  { baseState with pending_active := true, pending_target := 1,
                   pending_last_pointlen := 4, pending_time := 0 }

/-- C5 witness observation for the commit direction: count and point count
stable, observed at time 1 (debounce 0.35 s elapsed). -/
def c5e3 : WatchEnv :=
  { baseEnv with gi_advance_on_release := true, frame_stroke_count := 1,
                 last_stroke_pointlen := 4, now := 1 }

/-- C5 witness: two polls of a still-growing stroke never move the index, and
a poll that does move the index is a stable pending commit past the debounce
window. -/
theorem debounce_no_early_advance_witness :
    (noCommitTrace [c5o1, c5o2] c5s = true ∧
      (runPolls [c5o1, c5o2] c5s).guide_index = c5s.guide_index) ∧
    (noCommitObs c5o1 c5s = true ∧
      (watchBody c5o1 c5s).guide_index = c5s.guide_index) ∧
    ((watchBody c5e3 c5s3).guide_index ≠ c5s3.guide_index ∧
      (c5s3.pending_active = true ∧
        c5e3.last_stroke_pointlen = c5s3.pending_last_pointlen ∧
        debounce_seconds ≤ c5e3.now - c5s3.pending_time)) := by
  have hchg : (watchBody c5e3 c5s3).guide_index ≠ c5s3.guide_index := by
    have hd : debounce_seconds ≤ c5e3.now - c5s3.pending_time := by
      norm_num [debounce_seconds, c5e3, c5s3, baseEnv, baseState]
    have hb : watchBody c5e3 c5s3 =
        { advanceStep c5e3.gi_integrity_check c5e3.fresh_snapshot
            (c5s3.pending_target - c5s3.last_current_frame_count)
            c5s3.pending_target c5s3 with pending_active := false } := by
      rw [watchBody_frame_eq c5e3 c5s3 rfl,
        if_pos (show c5s3.pending_active = true from rfl),
        pendingStep_commit c5e3 c5s3 rfl rfl hd (by decide)]
    rw [hb]
    dsimp only
    rw [advanceStep_guide_index]
    decide
  have htr : noCommitTrace [c5o1, c5o2] c5s = true := by decide
  have ho : noCommitObs c5o1 c5s = true := by decide
  exact ⟨⟨htr, debounce_no_early_advance.2.1 [c5o1, c5o2] c5s htr⟩,
    ⟨ho, debounce_no_early_advance.1 c5o1 c5s ho⟩,
    ⟨hchg, debounce_no_early_advance.2.2 c5e3 c5s3 rfl rfl rfl hchg⟩⟩
